import Mathlib

/-!
Verification development for the uc-intg-firetv integration.

The Python sources under `intg_firetv/` are shallowly embedded below.
String operations from Python (`str.lower`, `str.upper`, `str.strip`,
`str.replace`, `str.split`, `str.startswith`) are re-implemented as
structurally recursive functions over `String.data` so that every
definition evaluates inside the kernel.  All command names and host
strings occurring in the repository are ASCII, so the ASCII case maps
`Char.toLower` / `Char.toUpper` coincide with Python behaviour on the
inputs of interest.

The transport client (`intg_firetv/client.py`) and the application
registry (`intg_firetv/apps.py`) are imported by the sources but are not
part of the source tree; where a definition depends on them it is
modelled from the specification and marked `Modelled from the spec:`.
-/

namespace FireTV

/-- Python string lowering, ASCII (`str.lower`). -/
def pyLower (s : String) : String := ⟨s.data.map Char.toLower⟩

/-- Python string uppering, ASCII (`str.upper`). -/
def pyUpper (s : String) : String := ⟨s.data.map Char.toUpper⟩

/-- Strip leading and trailing whitespace from a character list. -/
def stripChars (l : List Char) : List Char :=
  ((l.dropWhile Char.isWhitespace).reverse.dropWhile Char.isWhitespace).reverse

/-- Python `str.strip()` (whitespace at both ends removed). -/
def pyStrip (s : String) : String := ⟨stripChars s.data⟩

/-- Python `str.startswith(pre)`. -/
def pyStartsWith (s pre : String) : Bool := pre.data.isPrefixOf s.data

/-- Replace every non-overlapping occurrence of `pat` by `repl`, left to
right, with explicit fuel so the function is structurally recursive.
Matches Python `str.replace` for non-empty patterns (the only patterns
used by the sources). -/
def replaceFuel (pat repl : List Char) : Nat → List Char → List Char
  | _, [] => []
  | 0, l => l
  | fuel + 1, c :: rest =>
      if pat ≠ [] ∧ pat.isPrefixOf (c :: rest) then
        repl ++ replaceFuel pat repl fuel ((c :: rest).drop pat.length)
      else
        c :: replaceFuel pat repl fuel rest

/-- Python `s.replace(pat, repl)` for non-empty `pat`. -/
def pyReplace (s pat repl : String) : String :=
  ⟨replaceFuel pat.data repl.data s.data.length s.data⟩

/-- Split a character list on a separator character. -/
def splitCharAux (sep : Char) : List Char → List Char → List (List Char)
  | [], acc => [acc.reverse]
  | c :: rest, acc =>
      if c = sep then acc.reverse :: splitCharAux sep rest []
      else splitCharAux sep rest (c :: acc)

/-- Python `s.split(sep)` for a one-character separator. -/
def pySplitChar (sep : Char) (s : String) : List String :=
  (splitCharAux sep s.data []).map String.mk

/-- Characters after the first occurrence of `sep`, if any. -/
def afterCharAux (sep : Char) : List Char → Option (List Char)
  | [] => none
  | c :: rest => if c = sep then some rest else afterCharAux sep rest

/-- Python `s.split(sep, 1)[1]` for a one-character separator: the text
after the first separator.  The sources only evaluate this under a
`startswith` guard that guarantees the separator occurs, so the
out-of-range branch (Python would raise `IndexError`) is unreachable and
mapped to the empty string. -/
def pyAfterChar (sep : Char) (s : String) : String :=
  match afterCharAux sep s.data with
  | some rest => ⟨rest⟩
  | none => ""

/-- Parse the digits of a decimal numeral. -/
def digitsToNat? (l : List Char) : Option Nat :=
  if l ≠ [] ∧ l.all Char.isDigit then
    some (l.foldl (fun acc c => acc * 10 + (c.toNat - 48)) 0)
  else none

/-- Python `int(s)` on a string: optional surrounding whitespace, an
optional sign, then decimal digits; anything else raises `ValueError`
(modelled as `none`). -/
def pyParseInt (s : String) : Option Int :=
  match stripChars s.data with
  | '-' :: rest => (digitsToNat? rest).map (fun n => -(n : Int))
  | '+' :: rest => (digitsToNat? rest).map (fun n => (n : Int))
  | l => (digitsToNat? l).map (fun n => (n : Int))

/-- Python exceptions raised by the transport layer or by the flow
itself.  `Modelled from the spec:` `client.py` is not in the source
tree; per §4.1 the client raises a distinct `TokenInvalidError` when the
device rejects the credential.  As a standard Python exception class it
derives from `Exception` (remote.py orders an `except TokenInvalidError`
clause before `except Exception`, which is only meaningful for an
`Exception` subclass), so a blanket `except Exception` catches it; the
embedding therefore treats every constructor below as caught by
`except Exception`. -/
inductive PyError where
  | tokenInvalid (msg : String)
  | valueError (msg : String)
  | otherError (msg : String)
deriving Repr, DecidableEq

instance {ε α : Type} [DecidableEq ε] [DecidableEq α] :
    DecidableEq (Except ε α) := fun x y =>
  match x, y with
  | .ok a, .ok b =>
      if h : a = b then isTrue (by rw [h])
      else isFalse (by intro hh; cases hh; exact h rfl)
  | .ok _, .error _ => isFalse (by intro hh; cases hh)
  | .error _, .ok _ => isFalse (by intro hh; cases hh)
  | .error e, .error f =>
      if h : e = f then isTrue (by rw [h])
      else isFalse (by intro hh; cases hh; exact h rfl)

/-- Message text of an exception, as Python `str(err)` would render it. -/
def PyError.msg : PyError → String
  | .tokenInvalid m => m
  | .valueError m => m
  | .otherError m => m

/-- Network calls issued through the transport client. -/
inductive NetCall where
  | wake
  | testConnection (maxRetries : Nat)
  | requestPin (friendlyName : String)
  | verifyPin (pin : String)
  | navCommand (action : String)
  | mediaCommand (action : String)
  | launchApp (package : String)
deriving Repr, DecidableEq

/-- Observable events of a device or setup-flow operation, in order. -/
inductive SetupEvent where
  | clientCreate (host : String) (port : Int)
  | clientClose
  | sleepDelay (seconds : Nat)
  | net (c : NetCall)
deriving Repr, DecidableEq

/-- Does the event create a temporary client? -/
def SetupEvent.isCreate : SetupEvent → Bool
  | .clientCreate _ _ => true
  | _ => false

/-- Does the event close a client? -/
def SetupEvent.isClose : SetupEvent → Bool
  | .clientClose => true
  | _ => false

/-- Outcomes of the transport calls a `FireTVClient` can perform.
`Modelled from the spec:` `client.py` is not in the source tree; per
§4.1 `test_connection` returns a boolean and never raises, `wake_up` is
best effort, `request_pin` returns a boolean, `verify_pin` returns the
token string (empty on any verification failure), and the authenticated
command/app calls return booleans and may raise `TokenInvalidError`.
Each field records the outcome the device side produces for that call;
`Except` covers the unexpected-exception paths. -/
structure ClientBehavior where
  wakeResult : Except PyError Unit
  testResult : Bool
  requestPinResult : Except PyError Bool
  verifyPinResult : Except PyError String
  navResult : String → Except PyError Bool
  mediaResult : String → Except PyError Bool
  launchResult : String → Except PyError Bool

/-- One entry of the known-application registry.  `Modelled from the
spec:` `apps.py` (`FIRE_TV_TOP_APPS`) is not in the source tree; per §6
it is a static read-only table mapping application identifiers to
display names and package identifiers, so the embedding passes the
table as an explicit list in dictionary insertion order. -/
structure AppEntry where
  id : String
  name : String
  package : String
deriving Repr, DecidableEq

/-- Keys of the `nav_commands` dispatch table of
`FireTVDevice.send_command` (device.py lines 136-151). -/
def navCommandNames : List String :=
  ["dpad_up", "dpad_down", "dpad_left", "dpad_right", "select", "home",
   "back", "menu", "epg", "volume_up", "volume_down", "mute", "power",
   "sleep"]

/-- Keys of the `media_commands` dispatch table of
`FireTVDevice.send_command` (device.py lines 156-161). -/
def mediaCommandNames : List String :=
  ["play_pause", "pause", "fast_forward", "rewind"]

/-- Display-name normalization used identically by device.py line 172
and remote.py line 181: uppercase, spaces to underscores, plus signs to
`PLUS`. -/
def normalize_app_name (name : String) : String :=
  pyReplace (pyReplace (pyUpper name) " " "_") "+" "PLUS"

/-- Command string the presentation layer builds for a known
application (remote.py lines 181-186). -/
def launch_command (name : String) : String :=
  "LAUNCH_" ++ normalize_app_name name

/-- Package-name validation.  `Modelled from the spec:` `apps.py`
(`validate_package_name`) is not in the source tree; per §4.3 the
package must be a reverse-DNS-like token: dot-separated
alphanumeric/underscore segments, no empty segments, minimum two
segments. -/
def validate_package_name (package : String) : Bool :=
  let segs := pySplitChar '.' package
  2 ≤ segs.length &&
    segs.all (fun seg =>
      !seg.data.isEmpty && seg.data.all (fun c => c.isAlphanum || c == '_'))

/-- Convert the result of the `try` body of `send_command` through its
`except Exception: return False` clause (device.py lines 196-198). -/
def swallow : Except PyError Bool → Bool
  | .ok b => b
  | .error _ => false

/-- App-launch branches of `FireTVDevice.send_command` (device.py lines
166-194): the `LAUNCH_` registry lookup, the `custom_app:` form, and
the unknown-command fallthrough.  These inspect the raw (un-lowered)
command string, exactly as the source does. -/
def launchDispatch (registry : List AppEntry) (client : ClientBehavior)
    (command : String) : Except PyError Bool × List SetupEvent :=
  if pyStartsWith command "LAUNCH_" then
    match registry.find?
        (fun app => normalize_app_name app.name == pyReplace command "LAUNCH_" "") with
    | some app => (client.launchResult app.package, [.net (.launchApp app.package)])
    | none => (.ok false, [])
  else if pyStartsWith command "custom_app:" then
    let package := pyStrip (pyAfterChar ':' command)
    if validate_package_name package then
      (client.launchResult package, [.net (.launchApp package)])
    else (.ok false, [])
  else (.ok false, [])

/-- Body of the `try` block of `FireTVDevice.send_command` (device.py
lines 131-194): lower-case the command, dispatch through the navigation
table, then the media table, then the app-launch forms. -/
def send_command_body (registry : List AppEntry) (client : ClientBehavior)
    (command : String) : Except PyError Bool × List SetupEvent :=
  if navCommandNames.contains (pyLower command) then
    (client.navResult (pyLower command), [.net (.navCommand (pyLower command))])
  else if mediaCommandNames.contains (pyLower command) then
    (client.mediaResult (pyLower command), [.net (.mediaCommand (pyLower command))])
  else launchDispatch registry client command

/-- `FireTVDevice.send_command` (device.py lines 117-198): returns
`False` when no client exists, otherwise runs the dispatch body inside
`try ... except Exception: return False`. -/
def send_command (registry : List AppEntry) (client : Option ClientBehavior)
    (command : String) : Bool × List SetupEvent :=
  match client with
  | none => (false, [])
  | some c =>
      match send_command_body registry c command with
      | (r, tr) => (swallow r, tr)

/-- Entity-command status codes returned by `FireTVRemote._handle_command`. -/
inductive StatusCode where
  | ok
  | serverError
  | unauthorized
  | notImplemented
deriving Repr, DecidableEq

/-- Exception handling of `FireTVRemote._handle_command` (remote.py
lines 255-285) around the awaited `send_cmd` call: a normal boolean
result maps to `OK`/`SERVER_ERROR`; an escaping `TokenInvalidError`
maps to `UNAUTHORIZED`; any other escaping exception maps to
`SERVER_ERROR`. -/
def handle_send_cmd_outcome : Except PyError Bool → StatusCode
  | .ok true => .ok
  | .ok false => .serverError
  | .error (.tokenInvalid _) => .unauthorized
  | .error _ => .serverError

/-- The `send_cmd` path of `FireTVRemote._handle_command` (remote.py
lines 256-259) composed with `FireTVDevice.send_command`: the device
call returns a plain boolean (its own `except Exception` never lets an
exception escape), and the handler maps it to a status code. -/
def handle_send_cmd (registry : List AppEntry) (client : Option ClientBehavior)
    (command : String) : StatusCode × List SetupEvent :=
  match send_command registry client command with
  | (success, tr) => (handle_send_cmd_outcome (.ok success), tr)

/-- Session object of an open client, as observed by
`FireTVDevice.check_client_connected`. -/
structure SessionState where
  closed : Bool
deriving Repr, DecidableEq

/-- The shape of a `FireTVClient` that `check_client_connected`
inspects: an optional underlying session. -/
structure ClientConn where
  session : Option SessionState
deriving Repr, DecidableEq

/-- `FireTVDevice.check_client_connected` (device.py lines 95-115):
false when the client is `None`, false when its session is `None` or
closed, true otherwise.  The source performs no awaits and writes no
attribute, so the embedding is a pure predicate on the device state. -/
def check_client_connected (client : Option ClientConn) : Bool :=
  match client with
  | none => false
  | some c =>
      match c.session with
      | none => false
      | some s => !s.closed

/-- Transient state of `FireTVSetupFlow` (setup_flow.py lines 24-25):
the candidate host and port stored between the two pairing steps. -/
structure SetupState where
  temp_host : Option String
  temp_port : Int
deriving Repr, DecidableEq

/-- Python truthiness of the `_temp_host` attribute: `None` and the
empty string are falsy. -/
def hostTruthy : Option String → Bool
  | none => false
  | some h => !(h == "")

/-- One `input_values` dictionary handed to `query_device`.  A field is
`none` when its key is absent from the dictionary. -/
structure InputValues where
  pin : Option String
  host : Option String
  port : Option String
  name : Option String

/-- Device configuration record assembled on pairing success
(config.py lines 12-20, setup_flow.py lines 189-195). -/
structure FireTVConfigV where
  identifier : String
  name : String
  host : String
  port : Int
  token : String
deriving Repr, DecidableEq

/-- Identifier string built at setup_flow.py line 190. -/
def configIdentifier (host : String) (port : Int) : String :=
  "firetv_" ++ pyReplace host "." "_" ++ "_" ++ toString port

/-- Successful results `query_device` can return: either a further
input request (identified by the id of its single form field) or a
finished configuration. -/
inductive SetupResult where
  | requestInput (fieldId : String)
  | config (c : FireTVConfigV)
deriving Repr, DecidableEq

/-- Connection-failure message raised at setup_flow.py lines 100-107. -/
def connectErrMsg (host : String) (port : Int) : String :=
  "Cannot reach Fire TV at " ++ host ++ ":" ++ toString port ++
  "\n\nTroubleshooting:\n1. Ensure Fire TV is powered on\n2. Verify IP address is correct\n3. Try different port (8080, 8009, 8443)\n4. Check network/firewall allows connection"

/-- PIN-request-failure message raised at setup_flow.py lines 118-121. -/
def pinRequestErrMsg : String :=
  "Failed to request PIN display on Fire TV.\nPlease ensure Fire TV is powered on and accessible."

/-- PIN-verification-failure message raised at setup_flow.py lines
177-180. -/
def pinVerifyErrMsg : String :=
  "PIN verification failed.\nPlease check the PIN on your TV screen and try again."

/-- Port value used by `_initial_connection_step` (setup_flow.py lines
74-77): the literal `8080` when the key is absent, otherwise the form
string parsed by `int`. -/
def portOf (inp : InputValues) : Option Int :=
  match inp.port with
  | none => some 8080
  | some s => pyParseInt s

/-- Body of the `try` block of `_initial_connection_step`
(setup_flow.py lines 88-139): wake the device, sleep 3 seconds, test
the connection (3 retries), close and raise a descriptive error on
failure, otherwise request the PIN as "UC Remote", close, and either
raise a pairing-request error or return the PIN input form. -/
def initial_try_body (host : String) (port : Int) (beh : ClientBehavior) :
    Except PyError SetupResult × List SetupEvent :=
  match beh.wakeResult with
  | .error e => (.error e, [.net .wake])
  | .ok _ =>
      if !beh.testResult then
        (.error (.valueError (connectErrMsg host port)),
         [.net .wake, .sleepDelay 3, .net (.testConnection 3), .clientClose])
      else
        match beh.requestPinResult with
        | .error e =>
            (.error e,
             [.net .wake, .sleepDelay 3, .net (.testConnection 3),
              .net (.requestPin "UC Remote")])
        | .ok pinRequested =>
            if !pinRequested then
              (.error (.valueError pinRequestErrMsg),
               [.net .wake, .sleepDelay 3, .net (.testConnection 3),
                .net (.requestPin "UC Remote"), .clientClose])
            else
              (.ok (.requestInput "pin"),
               [.net .wake, .sleepDelay 3, .net (.testConnection 3),
                .net (.requestPin "UC Remote"), .clientClose])

/-- `FireTVSetupFlow._initial_connection_step` (setup_flow.py lines
64-145).  Validates the host and port before any client exists, stores
them, creates a temporary client, runs the try body, and on any
exception closes the client again, resets the transient state and
re-raises `ValueError("Setup failed: ...")`. -/
def initial_connection_step (st : SetupState) (inp : InputValues)
    (beh : ClientBehavior) :
    Except PyError SetupResult × SetupState × List SetupEvent :=
  if pyStrip (inp.host.getD "") == "" then
    (.error (.valueError "IP address is required"), st, [])
  else
    match portOf inp with
    | none => (.error (.valueError "Port must be a number"), st, [])
    | some port =>
        let host := pyStrip (inp.host.getD "")
        let st1 : SetupState := { temp_host := some host, temp_port := port }
        match initial_try_body host port beh with
        | (.ok r, tr) => (.ok r, st1, SetupEvent.clientCreate host port :: tr)
        | (.error e, tr) =>
            (.error (.valueError ("Setup failed: " ++ e.msg)),
             { temp_host := none, temp_port := 8080 },
             (SetupEvent.clientCreate host port :: tr) ++ [.clientClose])

/-- `FireTVSetupFlow._verify_pin_step` (setup_flow.py lines 147-205).
Validates the PIN and the stored host before any client exists, then
creates a temporary client, verifies the PIN, closes the client, and
either raises on an empty token or clears the transient state and
returns the finished configuration; any exception in the try block
closes the client again, clears the transient state and re-raises
`ValueError("PIN verification failed: ...")`. -/
def verify_pin_step (st : SetupState) (inp : InputValues)
    (beh : ClientBehavior) :
    Except PyError SetupResult × SetupState × List SetupEvent :=
  if pyStrip (inp.pin.getD "") == "" then
    (.error (.valueError "PIN is required"), st, [])
  else if !hostTruthy st.temp_host then
    (.error (.valueError "Setup flow error: no host stored from previous step"),
     st, [])
  else
    let pin := pyStrip (inp.pin.getD "")
    let host := st.temp_host.getD ""
    let port := st.temp_port
    let devName := pyStrip (inp.name.getD ("Fire TV (" ++ host ++ ")"))
    match beh.verifyPinResult with
    | .error e =>
        (.error (.valueError ("PIN verification failed: " ++ e.msg)),
         { temp_host := none, temp_port := 8080 },
         [.clientCreate host port, .net (.verifyPin pin), .clientClose])
    | .ok token =>
        if token == "" then
          (.error (.valueError ("PIN verification failed: " ++ pinVerifyErrMsg)),
           { temp_host := none, temp_port := 8080 },
           [.clientCreate host port, .net (.verifyPin pin), .clientClose,
            .clientClose])
        else
          (.ok (.config
             { identifier := configIdentifier host port
               name := devName
               host := host
               port := port
               token := token }),
           { temp_host := none, temp_port := 8080 },
           [.clientCreate host port, .net (.verifyPin pin), .clientClose])

/-- `FireTVSetupFlow.query_device` (setup_flow.py lines 50-62): route
to the PIN-verification step only when the `pin` key is present and a
candidate host is stored (truthy), otherwise run the initial
connection step. -/
def query_device (st : SetupState) (inp : InputValues)
    (beh : ClientBehavior) :
    Except PyError SetupResult × SetupState × List SetupEvent :=
  if inp.pin.isSome && hostTruthy st.temp_host then
    verify_pin_step st inp beh
  else
    initial_connection_step st inp beh

/-- A transport behavior on which every call succeeds; used as a
concrete instantiation in witnesses and counterexamples. -/
def okClient : ClientBehavior :=
  { wakeResult := .ok ()
    testResult := true
    requestPinResult := .ok true
    verifyPinResult := .ok "tok123"
    navResult := fun _ => .ok true
    mediaResult := fun _ => .ok true
    launchResult := fun _ => .ok true }

/-- A transport behavior whose authenticated calls raise
`TokenInvalidError`, as the device does once the credential is
revoked. -/
def tokenRejectingClient : ClientBehavior :=
  { wakeResult := .ok ()
    testResult := true
    requestPinResult := .ok true
    verifyPinResult := .ok ""
    navResult := fun _ => .error (.tokenInvalid "token rejected")
    mediaResult := fun _ => .error (.tokenInvalid "token rejected")
    launchResult := fun _ => .error (.tokenInvalid "token rejected") }

lemma isPrefixOf_append_self (p t : List Char) : p.isPrefixOf (p ++ t) = true := by
  induction p with
  | nil => cases t <;> rfl
  | cons a as ih => simp [List.isPrefixOf, ih]

lemma pyStartsWith_append_self (s x : String) : pyStartsWith (s ++ x) s = true := by
  unfold pyStartsWith
  rw [String.data_append]
  exact isPrefixOf_append_self _ _

/-- C1: when the transport raises `TokenInvalidError` during
`FireTVDevice.send_command`, the blanket `except Exception` of
device.py lines 196-198 converts it to the boolean `False` instead of
letting it propagate, so `FireTVRemote._handle_command` answers
`SERVER_ERROR`; its dedicated `except TokenInvalidError` clause, which
would answer `UNAUTHORIZED` had the error reached it, is unreachable on
the `send_cmd` path.  The claim that the error "propagates distinctly
to send_command's caller" is therefore false on the code. -/
theorem C1_token_invalid_swallowed :
    send_command_body [] tokenRejectingClient "DPAD_UP"
        = (.error (.tokenInvalid "token rejected"),
           [.net (.navCommand "dpad_up")])
    ∧ send_command [] (some tokenRejectingClient) "DPAD_UP"
        = (false, [.net (.navCommand "dpad_up")])
    ∧ handle_send_cmd [] (some tokenRejectingClient) "DPAD_UP"
        = (.serverError, [.net (.navCommand "dpad_up")])
    ∧ handle_send_cmd_outcome (.error (.tokenInvalid "token rejected"))
        = .unauthorized := by
  refine ⟨?_, ?_, ?_, ?_⟩ <;> decide

/-- C2 counterexample: after a successful `beginPairing` stored the
host `192.168.1.10`, submitting a PIN that is blank after trimming
makes `query_device` fail with the validation error before any client
is created (the event trace is empty), but the stored pairing context
is NOT cleared: `temp_host` is still `some "192.168.1.10"`, not the
empty/default state the claim requires. -/
theorem C2_context_not_cleared :
    query_device ⟨some "192.168.1.10", 8080⟩ ⟨some " ", none, none, none⟩
        okClient
      = (.error (.valueError "PIN is required"),
         ⟨some "192.168.1.10", 8080⟩, [])
    ∧ (⟨some "192.168.1.10", 8080⟩ : SetupState) ≠ ⟨none, 8080⟩ := by
  refine ⟨?_, ?_⟩ <;> decide

/-- C2 amended: if a prior `beginPairing` stored a candidate host and
the PIN-verify step is invoked with a PIN that is empty after trimming,
the setup flow fails with the validation error `"PIN is required"`
before creating any client or making any network call (the event trace
is empty), and the stored pairing context is left exactly as it was
(it is not cleared). -/
theorem C2_empty_pin_fails_before_network (st : SetupState)
    (inp : InputValues) (beh : ClientBehavior)
    (h1 : hostTruthy st.temp_host = true)
    (h2 : inp.pin.isSome = true)
    (h3 : pyStrip (inp.pin.getD "") = "") :
    query_device st inp beh
      = (.error (.valueError "PIN is required"), st, []) := by
  unfold query_device verify_pin_step
  simp [h1, h2, h3]

/-- Witness for C2's amended theorem at a concrete state and input. -/
theorem C2_empty_pin_fails_before_network_witness :
    query_device ⟨some "10.0.0.5", 8080⟩ ⟨some "  ", none, none, none⟩
        okClient
      = (.error (.valueError "PIN is required"),
         ⟨some "10.0.0.5", 8080⟩, []) :=
  C2_empty_pin_fails_before_network ⟨some "10.0.0.5", 8080⟩
    ⟨some "  ", none, none, none⟩ okClient (by decide) (by decide)
    (by decide)

/-- C3: a setup input that submits a PIN (the PIN-entry form built at
setup_flow.py lines 126-139 carries only the `pin` field, so its host
field is absent or blank) while no candidate host is stored falls
through to the initial-connection step, which fails immediately with
the usage error `"IP address is required"` before creating any client
or issuing any network call. -/
theorem C3_pin_without_pairing_fails_fast (st : SetupState)
    (inp : InputValues) (beh : ClientBehavior)
    (h1 : hostTruthy st.temp_host = false)
    (h2 : inp.pin.isSome = true)
    (h3 : pyStrip (inp.host.getD "") = "") :
    query_device st inp beh
      = (.error (.valueError "IP address is required"), st, []) := by
  unfold query_device initial_connection_step
  simp [h1, h2, h3]

/-- Witness for C3 at the concrete idle state and a bare PIN form
response. -/
theorem C3_pin_without_pairing_fails_fast_witness :
    query_device ⟨none, 8080⟩ ⟨some "1234", none, none, none⟩ okClient
      = (.error (.valueError "IP address is required"), ⟨none, 8080⟩, []) :=
  C3_pin_without_pairing_fails_fast ⟨none, 8080⟩
    ⟨some "1234", none, none, none⟩ okClient (by decide) (by decide)
    (by decide)

/-- C4 counterexample: the two command strings
`custom_app:com.spotify.tv.android` and
`CUSTOM_APP:com.spotify.tv.android` differ only in letter case, yet the
lower-case form is dispatched to the app-launch transport call while
the upper-case form returns `False` without any transport call: the
`custom_app:` (and `LAUNCH_`) prefixes are matched case-sensitively on
the raw command string (device.py lines 166 and 181), so the dispatch
outcome is not invariant under case changes. -/
theorem C4_case_sensitivity_counterexample :
    pyLower "CUSTOM_APP:com.spotify.tv.android"
        = pyLower "custom_app:com.spotify.tv.android"
    ∧ send_command [] (some okClient) "custom_app:com.spotify.tv.android"
        = (true, [.net (.launchApp "com.spotify.tv.android")])
    ∧ send_command [] (some okClient) "CUSTOM_APP:com.spotify.tv.android"
        = (false, [])
    ∧ send_command [] (some okClient) "custom_app:com.spotify.tv.android"
        ≠ send_command [] (some okClient) "CUSTOM_APP:com.spotify.tv.android" := by
  refine ⟨?_, ?_, ?_, ?_⟩ <;> decide

/-- C4 amended: the dispatch outcome of `FireTVDevice.send_command` is
invariant under changes of letter case for the navigation/media
commands (the incoming name is lower-cased before the table lookups);
the `LAUNCH_<NAME>` and `custom_app:<package>` forms are matched
case-sensitively on the raw command string and are excluded. -/
theorem C4_nav_media_case_insensitive (registry : List AppEntry)
    (client : Option ClientBehavior) (c1 c2 : String)
    (hlow : pyLower c1 = pyLower c2)
    (hmem : (navCommandNames.contains (pyLower c1)
             || mediaCommandNames.contains (pyLower c1)) = true) :
    send_command registry client c1 = send_command registry client c2 := by
  cases client with
  | none => rfl
  | some beh =>
      unfold send_command send_command_body
      rw [← hlow]
      rcases hnav : navCommandNames.contains (pyLower c1) with _ | _
      · have hmed : mediaCommandNames.contains (pyLower c1) = true := by
          cases hmed2 : mediaCommandNames.contains (pyLower c1)
          · rw [hnav, hmed2] at hmem
            exact absurd hmem (by decide)
          · rfl
        simp only [hnav, hmed]
        simp
      · simp only [hnav]
        simp

/-- Witness for C4's amended theorem: `DPAD_UP` and `DpAd_Up` dispatch
identically. -/
theorem C4_nav_media_case_insensitive_witness :
    send_command [] (some okClient) "DPAD_UP"
      = send_command [] (some okClient) "DpAd_Up" :=
  C4_nav_media_case_insensitive [] (some okClient) "DPAD_UP" "DpAd_Up"
    (by decide) (by decide)

/-- C5: a `LAUNCH_<NAME>` command built by the presentation layer
(remote.py lines 181-186) for an application whose normalized display
name resolves to its own registry entry is dispatched by
`FireTVDevice.send_command` to the app-launch transport call with
exactly that application's registered package identifier; and any
`LAUNCH_`-prefixed command matching no registry entry returns `False`
with no transport call.  The first hypothesis records that stripping
the `LAUNCH_` prefix recovers the normalized name (Python
`str.replace` removes every occurrence, so a display name containing
`LAUNCH_` itself is excluded); the second that the application is the
first registry entry with its normalized name. -/
theorem C5_launch_roundtrip (registry : List AppEntry)
    (beh : ClientBehavior) (app : AppEntry)
    (hsuffix : pyReplace (launch_command app.name) "LAUNCH_" ""
                 = normalize_app_name app.name)
    (hfind : registry.find?
               (fun a => normalize_app_name a.name == normalize_app_name app.name)
               = some app) :
    (send_command registry (some beh) (launch_command app.name)
       = (swallow (beh.launchResult app.package),
          [.net (.launchApp app.package)]))
    ∧ ∀ cmd, pyStartsWith cmd "LAUNCH_" = true →
        navCommandNames.contains (pyLower cmd) = false →
        mediaCommandNames.contains (pyLower cmd) = false →
        registry.find?
            (fun a => normalize_app_name a.name == pyReplace cmd "LAUNCH_" "")
            = none →
        send_command registry (some beh) cmd = (false, []) := by
  constructor
  · have hnav : pyLower (launch_command app.name) ∉ navCommandNames := by
      have h : navCommandNames.contains (pyLower (launch_command app.name))
          = false := rfl
      simpa using h
    have hmed : pyLower (launch_command app.name) ∉ mediaCommandNames := by
      have h : mediaCommandNames.contains (pyLower (launch_command app.name))
          = false := rfl
      simpa using h
    have hL : pyStartsWith (launch_command app.name) "LAUNCH_" = true :=
      pyStartsWith_append_self "LAUNCH_" (normalize_app_name app.name)
    unfold send_command send_command_body launchDispatch
    rw [hsuffix]
    simp [hnav, hmed, hL, hfind]
  · intro cmd h1 h2 h3 h4
    have h2m : pyLower cmd ∉ navCommandNames := by simpa using h2
    have h3m : pyLower cmd ∉ mediaCommandNames := by simpa using h3
    unfold send_command send_command_body launchDispatch
    simp [h1, h2m, h3m, h4, swallow]

/-- Witness for C5 with a one-entry registry holding "Netflix":
`LAUNCH_NETFLIX` resolves to that entry's package identifier. -/
theorem C5_launch_roundtrip_witness :
    send_command [⟨"netflix", "Netflix", "com.netflix.ninja"⟩] (some okClient)
        (launch_command "Netflix")
      = (swallow (okClient.launchResult "com.netflix.ninja"),
         [.net (.launchApp "com.netflix.ninja")]) :=
  (C5_launch_roundtrip [⟨"netflix", "Netflix", "com.netflix.ninja"⟩] okClient
      ⟨"netflix", "Netflix", "com.netflix.ninja"⟩ (by decide) (by decide)).1

/-- C6: for every command `custom_app:<tail>`, `send_command` takes the
text after the first colon verbatim (the prefix itself holds the only
preceding colon), trims it, and forwards it to the app-launch transport
call exactly when it passes package-name validation; on validation
failure it returns `False` and issues no network call. -/
theorem C6_custom_app_validation (registry : List AppEntry)
    (beh : ClientBehavior) (tail : String) :
    (validate_package_name (pyStrip tail) = true →
       send_command registry (some beh) ("custom_app:" ++ tail)
         = (swallow (beh.launchResult (pyStrip tail)),
            [.net (.launchApp (pyStrip tail))]))
    ∧ (validate_package_name (pyStrip tail) = false →
       send_command registry (some beh) ("custom_app:" ++ tail)
         = (false, [])) := by
  have hnav : pyLower ("custom_app:" ++ tail) ∉ navCommandNames := by
    have h : navCommandNames.contains (pyLower ("custom_app:" ++ tail))
        = false := rfl
    simpa using h
  have hmed : pyLower ("custom_app:" ++ tail) ∉ mediaCommandNames := by
    have h : mediaCommandNames.contains (pyLower ("custom_app:" ++ tail))
        = false := rfl
    simpa using h
  have hL : pyStartsWith ("custom_app:" ++ tail) "LAUNCH_" = false := rfl
  have hC : pyStartsWith ("custom_app:" ++ tail) "custom_app:" = true :=
    pyStartsWith_append_self "custom_app:" tail
  have hA : pyAfterChar ':' ("custom_app:" ++ tail) = tail := rfl
  constructor <;> intro hv <;>
    (unfold send_command send_command_body launchDispatch
     simp [hnav, hmed, hL, hC, hA, hv, swallow])

/-- Witness for C6: `custom_app:com.spotify.tv.android` validates and
is forwarded verbatim. -/
theorem C6_custom_app_validation_witness :
    send_command [] (some okClient) ("custom_app:" ++ "com.spotify.tv.android")
      = (swallow (okClient.launchResult (pyStrip "com.spotify.tv.android")),
         [.net (.launchApp (pyStrip "com.spotify.tv.android"))]) :=
  (C6_custom_app_validation [] okClient "com.spotify.tv.android").1 (by decide)

/-- C7: on every exit path of the two pairing steps — success,
validation failure (unreachable host, refused PIN request, empty
token), and unexpected transport exception — every temporary client
created during the step is also closed before the step returns or
raises: in the event trace of either step, client creations never
outnumber client closes (the creation, when present, is the first
event, and `close` is idempotent, so extra closes are safe). -/
theorem C7_temp_clients_closed (st : SetupState) (inp : InputValues)
    (beh : ClientBehavior) :
    ((initial_connection_step st inp beh).2.2.countP SetupEvent.isCreate
       ≤ (initial_connection_step st inp beh).2.2.countP SetupEvent.isClose)
    ∧ ((verify_pin_step st inp beh).2.2.countP SetupEvent.isCreate
       ≤ (verify_pin_step st inp beh).2.2.countP SetupEvent.isClose) := by
  constructor
  · unfold initial_connection_step initial_try_body
    split
    · simp
    · split
      · simp
      · rcases hw : beh.wakeResult with e | u
        · simp [hw, List.countP_cons, SetupEvent.isCreate, SetupEvent.isClose]
        · cases ht : beh.testResult
          · simp [hw, ht, List.countP_cons, SetupEvent.isCreate,
              SetupEvent.isClose]
          · rcases hp : beh.requestPinResult with e2 | b
            · simp [hw, ht, hp, List.countP_cons, SetupEvent.isCreate,
                SetupEvent.isClose]
            · cases b <;>
                simp [hw, ht, hp, List.countP_cons, SetupEvent.isCreate,
                  SetupEvent.isClose]
  · unfold verify_pin_step
    split
    · simp
    · split
      · simp
      · rcases hv : beh.verifyPinResult with e | token
        · simp [hv, List.countP_cons, SetupEvent.isCreate, SetupEvent.isClose]
        · cases htok : token == "" <;>
            simp [hv, htok, List.countP_cons, SetupEvent.isCreate,
              SetupEvent.isClose]

/-- C8: for every input with a non-empty (trimmed) host and a numeric
port, and a wake call that completes, the initial pairing step performs
exactly: create the temporary client, wake the device, wait the fixed
3-second settle delay, test the connection with 3 bounded retries;
on connection failure it raises the descriptive connection error and
never requests a PIN; on success it requests PIN display as
"UC Remote", returning the PIN input form when the request succeeds
and raising the pairing-request error when it fails. -/
theorem C8_initial_step_sequence (st : SetupState) (inp : InputValues)
    (beh : ClientBehavior) (host : String) (port : Int)
    (hhost : pyStrip (inp.host.getD "") = host)
    (hne : (host == "") = false)
    (hport : portOf inp = some port)
    (hwake : beh.wakeResult = .ok ()) :
    (beh.testResult = false →
        initial_connection_step st inp beh
          = (.error (.valueError ("Setup failed: " ++ connectErrMsg host port)),
             ⟨none, 8080⟩,
             [.clientCreate host port, .net .wake, .sleepDelay 3,
              .net (.testConnection 3), .clientClose, .clientClose]))
    ∧ (beh.testResult = true → beh.requestPinResult = .ok true →
        initial_connection_step st inp beh
          = (.ok (.requestInput "pin"), ⟨some host, port⟩,
             [.clientCreate host port, .net .wake, .sleepDelay 3,
              .net (.testConnection 3), .net (.requestPin "UC Remote"),
              .clientClose]))
    ∧ (beh.testResult = true → beh.requestPinResult = .ok false →
        initial_connection_step st inp beh
          = (.error (.valueError ("Setup failed: " ++ pinRequestErrMsg)),
             ⟨none, 8080⟩,
             [.clientCreate host port, .net .wake, .sleepDelay 3,
              .net (.testConnection 3), .net (.requestPin "UC Remote"),
              .clientClose, .clientClose])) := by
  refine ⟨?_, ?_, ?_⟩
  · intro ht
    unfold initial_connection_step initial_try_body
    simp [hhost, hne, hport, hwake, ht, PyError.msg]
  · intro ht hp
    unfold initial_connection_step initial_try_body
    simp [hhost, hne, hport, hwake, ht, hp]
  · intro ht hp
    unfold initial_connection_step initial_try_body
    simp [hhost, hne, hport, hwake, ht, hp, PyError.msg]

/-- Witness for C8 at a concrete input, on the success path. -/
theorem C8_initial_step_sequence_witness :
    initial_connection_step ⟨none, 8080⟩
        ⟨none, some "10.0.0.2", some "8080", none⟩ okClient
      = (.ok (.requestInput "pin"), ⟨some "10.0.0.2", 8080⟩,
         [.clientCreate "10.0.0.2" 8080, .net .wake, .sleepDelay 3,
          .net (.testConnection 3), .net (.requestPin "UC Remote"),
          .clientClose]) :=
  (C8_initial_step_sequence ⟨none, 8080⟩
      ⟨none, some "10.0.0.2", some "8080", none⟩ okClient
      "10.0.0.2" 8080 (by decide) (by decide) (by decide) (by decide)).2.1
    (by decide) (by decide)

/-- C9: `FireTVDevice.check_client_connected` answers `true` exactly
when a client exists, its session object exists, and that session is
not closed.  The embedded source (device.py lines 95-115) is a pure
predicate on the device state: it contains no awaited transport call
and assigns no attribute. -/
theorem C9_check_client_connected_iff (client : Option ClientConn) :
    check_client_connected client = true ↔
      ∃ c s, client = some c ∧ c.session = some s ∧ s.closed = false := by
  cases client with
  | none => simp [check_client_connected]
  | some c =>
      cases hc : c.session with
      | none => simp [check_client_connected, hc]
      | some s =>
          cases hb : s.closed <;>
            simp [check_client_connected, hc, hb]

/-- C10: with no client created on the device, `send_command` returns
`False` for every command string, raising nothing and issuing no
transport call (device.py lines 127-129). -/
theorem C10_no_client_returns_false (registry : List AppEntry)
    (command : String) :
    send_command registry none command = (false, []) := rfl

end FireTV
